import Mathlib

/-!
Verification of the edge-first attention and escalation engine of the Thea
repository (src/backend/thinking_engine.py and the notification path in
src/backend/main.py), as a shallow embedding in Lean 4.

Modelling conventions:
* Python floats (times and scores) are modelled as rationals; all the
  constants appearing in the code (0.4, 0.3, 30 s, ...) are exact decimals.
* `time.time()` is passed explicitly as a `now : ℚ` argument to every
  operation that reads the clock in the source.
* Python dicts keyed by strings are association lists together with the
  helpers `dictGet` / `dictSet` below; Python sets of strings are `List String`
  used only through membership.
* Methods that mutate `self` return the updated structure (paired with the
  method's return value where the source returns one).
-/

namespace Thea

/-- One buffered observation (`Observation` dataclass). Image/audio payloads
are byte strings in the source; their contents are never inspected by the
engine, only carried, so they are modelled as lists of bytes. -/
structure Observation where
  window_title : String
  app_name : String
  app_category : String
  context_hash : String
  timestamp : ℚ
  image_bytes : Option (List Nat) := none
  audio_bytes : Option (List Nat) := none
  description : Option String := none
  significance_score : ℚ := 0
deriving DecidableEq

/-- Result of a thinking cycle (`ThinkingCycleResult` dataclass). -/
structure ThinkingCycleResult where
  significant_observations : List Observation := []
  gemini_recommendations : List String := []
  knowledge_updates : Nat := 0
  should_notify : Bool := false
  notification_content : Option String := none
deriving DecidableEq

/-- A thought saved for later (`SavedThought` dataclass). -/
structure SavedThought where
  content : String
  reason : String
  timestamp : ℚ
  context : Option String := none
deriving DecidableEq

/-- Python `str.lower()`: character-wise lowercasing (the category strings it
is applied to are ASCII). -/
def pyLower (s : String) : String :=
  ⟨s.data.map Char.toLower⟩

/-- Python `dict.get(k, d)` over an association list. -/
def dictGet {α : Type} (l : List (String × α)) (k : String) (d : α) : α :=
  match l.find? (fun p => p.1 == k) with
  | some p => p.2
  | none => d

/-- Python `dict[k] = v`: afterwards the key `k` holds exactly the binding `v`. -/
def dictSet {α : Type} (l : List (String × α)) (k : String) (v : α) : List (String × α) :=
  (k, v) :: l.filter (fun p => !(p.1 == k))

/-- Ring buffer of observations with hash-based deduplication
(`ObservationBuffer.__init__`). The deque with `maxlen` is a list (oldest
first) trimmed to its last `max_size` elements on append. -/
structure ObservationBuffer where
  max_size : Nat := 10
  buffer : List Observation := []
  context_hashes : List String := []
  recent_hash_ttl : ℚ := 30
  hash_timestamps : List (String × ℚ) := []
deriving DecidableEq

/-- `ObservationBuffer._cleanup_old_hashes`: drop every recency entry whose
timestamp is strictly older than `now - ttl`, from the timestamp dict and
from the hash set. -/
def ObservationBuffer.cleanup_old_hashes (b : ObservationBuffer) (now : ℚ) :
    ObservationBuffer :=
  let cutoff := now - b.recent_hash_ttl
  let expired := (b.hash_timestamps.filter (fun ht => decide (ht.2 < cutoff))).map Prod.fst
  { b with
    context_hashes := b.context_hashes.filter (fun h => !(expired.contains h)),
    hash_timestamps := b.hash_timestamps.filter (fun ht => !(decide (ht.2 < cutoff))) }

/-- `ObservationBuffer.add`: clean up expired hashes, reject a duplicate
context, otherwise append (evicting from the front past capacity, the deque's
`maxlen` behaviour) and record the hash with the current time. Returns the
source's boolean (`True` if added) together with the updated buffer. -/
def ObservationBuffer.add (b : ObservationBuffer) (obs : Observation) (now : ℚ) :
    Bool × ObservationBuffer :=
  let b := b.cleanup_old_hashes now
  if b.context_hashes.contains obs.context_hash then
    (false, b)
  else
    let buf := b.buffer ++ [obs]
    let buf := if b.max_size < buf.length then buf.drop (buf.length - b.max_size) else buf
    (true,
      { b with
        buffer := buf,
        context_hashes := obs.context_hash :: b.context_hashes,
        hash_timestamps := dictSet b.hash_timestamps obs.context_hash now })

/-- `ObservationBuffer.get_all`. -/
def ObservationBuffer.get_all (b : ObservationBuffer) : List Observation :=
  b.buffer

/-- `ObservationBuffer.get_recent`: observations from the last `seconds`. -/
def ObservationBuffer.get_recent (b : ObservationBuffer) (now seconds : ℚ) :
    List Observation :=
  b.buffer.filter (fun o => decide (now - seconds ≤ o.timestamp))

/-- `ObservationBuffer.clear`: empty the buffer, keep the recency hashes. -/
def ObservationBuffer.clear (b : ObservationBuffer) : ObservationBuffer :=
  { b with buffer := [] }

/-- `ObservationBuffer.__len__`. -/
def ObservationBuffer.length (b : ObservationBuffer) : Nat :=
  b.buffer.length

/-- Tracks user activity (`IdleDetector.__init__`). The construction instant
(`time.time()` at startup) is taken as time 0; the activity history deque has
`maxlen` 100. -/
structure IdleDetector where
  idle_threshold : ℚ := 120
  last_activity_time : ℚ := 0
  activity_history : List (ℚ × String) := []
deriving DecidableEq

/-- `IdleDetector.record_activity`: append the event and reset the idle clock. -/
def IdleDetector.record_activity (d : IdleDetector) (window_title : String)
    (now : ℚ) : IdleDetector :=
  let h := d.activity_history ++ [(now, window_title)]
  let h := if 100 < h.length then h.drop (h.length - 100) else h
  { d with activity_history := h, last_activity_time := now }

/-- `IdleDetector.is_idle`: strictly more than the threshold since activity. -/
def IdleDetector.is_idle (d : IdleDetector) (now : ℚ) : Bool :=
  decide (d.idle_threshold < now - d.last_activity_time)

/-- `IdleDetector.get_idle_duration`. -/
def IdleDetector.get_idle_duration (d : IdleDetector) (now : ℚ) : ℚ :=
  max 0 (now - d.last_activity_time)

/-- `IdleDetector.get_activity_intensity`: 0 when fewer than 2 recent events,
else unique non-empty window titles in the trailing window, capped at 10,
scaled to a value at most 1. -/
def IdleDetector.get_activity_intensity (d : IdleDetector) (now window_seconds : ℚ) : ℚ :=
  let cutoff := now - window_seconds
  let recent := d.activity_history.filter (fun a => decide (cutoff ≤ a.1))
  if recent.length < 2 then 0
  else
    let unique_windows := ((recent.filter (fun a => !(a.2 == ""))).map Prod.snd).dedup.length
    min 1 ((unique_windows : ℚ) / 10)

/-- The scorer's category weight table: built in `SignificanceScorer.__init__`
and never mutated afterwards, so modelled as a constant. -/
def category_weights : List (String × ℚ) :=
  [("development", 3/5), ("work", 1/2), ("communication", 2/5),
   ("media", 3/10), ("other", 1/5)]

/-- Edge-based significance scoring state (`SignificanceScorer.__init__`). -/
structure SignificanceScorer where
  seen_contexts : List (String × Nat) := []
  last_significant_time : ℚ := 0
deriving DecidableEq

/-- `SignificanceScorer.score`: weighted sum of novelty, category weight,
context change (or first-observation credit), focus bonus and staleness bonus,
clamped above by 1. As a side effect the seen count of the context hash is
incremented. Returns the score together with the updated scorer. -/
def SignificanceScorer.score (s : SignificanceScorer) (obs : Observation)
    (previous_obs : Option Observation) (activity_intensity : ℚ) (now : ℚ) :
    ℚ × SignificanceScorer :=
  let seen_count := dictGet s.seen_contexts obs.context_hash 0
  let novelty : ℚ := 1 / (1 + (seen_count : ℚ) * (1/2))
  let sc := novelty * (3/10)
  let sc := sc + (dictGet category_weights (pyLower obs.app_category) (1/5)) * (1/5)
  let sc := sc +
    (match previous_obs with
     | some p =>
         (if obs.app_name ≠ p.app_name then (1/5 : ℚ) else 0) +
         (if obs.app_category ≠ p.app_category then (3/20 : ℚ) else 0)
     | none => (1/10 : ℚ))
  let sc := sc + (1 - activity_intensity) * (3/20)
  let sc := sc + (if 300 < now - s.last_significant_time then (1/10 : ℚ) else 0)
  (min 1 sc,
    { s with seen_contexts := dictSet s.seen_contexts obs.context_hash (seen_count + 1) })

/-- `SignificanceScorer.mark_significant`: reset the staleness clock. -/
def SignificanceScorer.mark_significant (s : SignificanceScorer) (now : ℚ) :
    SignificanceScorer :=
  { s with last_significant_time := now }

/-- `SignificanceScorer.reset_context`: forget the seen count of one hash. -/
def SignificanceScorer.reset_context (s : SignificanceScorer) (context_hash : String) :
    SignificanceScorer :=
  { s with seen_contexts := s.seen_contexts.filter (fun p => !(p.1 == context_hash)) }

/-- The engine's thinking mode (`ThinkingState` enum). -/
inductive ThinkingState where
  | ACTIVE
  | THINKING
  | DEEP_REFLECTION
  | RESTING
deriving DecidableEq

/-- The `_stats` dictionary of `ThinkingEngine.__init__`, with its fixed keys. -/
structure Stats where
  observations_total : Nat := 0
  observations_buffered : Nat := 0
  observations_deduplicated : Nat := 0
  significant_count : Nat := 0
  gemini_consulted : Nat := 0
  edge_filtered : Nat := 0
  thoughts_saved : Nat := 0
  notifications_sent : Nat := 0
deriving DecidableEq

/-- The orchestrator state (`ThinkingEngine.__init__`). Field defaults are the
constructor's values, with the construction instant taken as time 0. -/
structure ThinkingEngine where
  state : ThinkingState := ThinkingState.ACTIVE
  observation_buffer : ObservationBuffer := {}
  idle_detector : IdleDetector := {}
  significance_scorer : SignificanceScorer := {}
  thinking_cycle_interval : ℚ := 10
  notification_cooldown : ℚ := 15
  significance_threshold : ℚ := 2/5
  gemini_threshold : ℚ := 2/5
  last_thinking_cycle : ℚ := 0
  last_notification_time : ℚ := 0
  pending_thoughts : List String := []
  saved_thoughts : List SavedThought := []
  cycle_count : Nat := 0
  gemini_call_count : Nat := 0
  stats : Stats := {}
deriving DecidableEq

/-- `ThinkingEngine.should_run_thinking_cycle`. -/
def ThinkingEngine.should_run_thinking_cycle (e : ThinkingEngine) (now : ℚ) : Bool :=
  decide (e.thinking_cycle_interval ≤ now - e.last_thinking_cycle)

/-- `ThinkingEngine.can_notify`: the cooldown has elapsed. -/
def ThinkingEngine.can_notify (e : ThinkingEngine) (now : ℚ) : Bool :=
  decide (e.notification_cooldown ≤ now - e.last_notification_time)

/-- `ThinkingEngine.update_state`: idle first (RESTING past 300 s of idleness,
else DEEP_REFLECTION), then THINKING when the buffer is non-empty and a cycle
is due, else ACTIVE. Returns the new state and the engine holding it. -/
def ThinkingEngine.update_state (e : ThinkingEngine) (now : ℚ) :
    ThinkingState × ThinkingEngine :=
  let st :=
    if e.idle_detector.is_idle now then
      if 300 < e.idle_detector.get_idle_duration now then ThinkingState.RESTING
      else ThinkingState.DEEP_REFLECTION
    else if 0 < e.observation_buffer.length ∧ e.should_run_thinking_cycle now = true then
      ThinkingState.THINKING
    else ThinkingState.ACTIVE
  (st, { e with state := st })

/-- Accumulated output of the scoring loop inside `run_thinking_cycle`. -/
structure ScoreLoopOut where
  scorer : SignificanceScorer
  significant : List Observation
  mark_calls : Nat
deriving DecidableEq

/-- The `for obs in observations` loop of `ThinkingEngine.run_thinking_cycle`:
score each observation against its predecessor, stamp the score on the
observation, collect those at or above the threshold, and call
`mark_significant` in exactly the places the source does. `mark_calls` counts
those calls. -/
def scoreLoop (scorer : SignificanceScorer) (threshold activity_intensity now : ℚ)
    (previous_obs : Option Observation) : List Observation → ScoreLoopOut
  | [] => ⟨scorer, [], 0⟩
  | obs :: rest =>
    let p := scorer.score obs previous_obs activity_intensity now
    let obs' := { obs with significance_score := p.1 }
    if threshold ≤ p.1 then
      let scorer2 := p.2.mark_significant now
      let out := scoreLoop scorer2 threshold activity_intensity now (some obs') rest
      ⟨out.scorer, obs' :: out.significant, out.mark_calls + 1⟩
    else
      let out := scoreLoop p.2 threshold activity_intensity now (some obs') rest
      ⟨out.scorer, out.significant, out.mark_calls⟩

/-- Output of `ThinkingEngine.run_thinking_cycle`: the cycle result, the
updated engine, and the number of `mark_significant` calls the cycle made. -/
structure CycleOutput where
  result : ThinkingCycleResult
  engine : ThinkingEngine
  mark_significant_calls : Nat
deriving DecidableEq

/-- `ThinkingEngine.run_thinking_cycle`: stamp the cycle time, bail out on an
empty buffer, otherwise score all buffered observations, record the
significant ones, and clear the buffer unconditionally. -/
def ThinkingEngine.run_thinking_cycle (e : ThinkingEngine) (now : ℚ) : CycleOutput :=
  let e1 := { e with last_thinking_cycle := now, cycle_count := e.cycle_count + 1 }
  let observations := e1.observation_buffer.get_all
  if observations.isEmpty then
    ⟨{}, e1, 0⟩
  else
    let activity_intensity := e1.idle_detector.get_activity_intensity now 60
    let out := scoreLoop e1.significance_scorer e1.significance_threshold
      activity_intensity now none observations
    let result : ThinkingCycleResult := { significant_observations := out.significant }
    ⟨result,
      { e1 with
        significance_scorer := out.scorer,
        stats := { e1.stats with
          significant_count := e1.stats.significant_count + out.significant.length },
        observation_buffer := e1.observation_buffer.clear },
      out.mark_calls⟩

/-- `ThinkingEngine.get_pending_thoughts`: return the pending thoughts and
empty the internal list. -/
def ThinkingEngine.get_pending_thoughts (e : ThinkingEngine) :
    List String × ThinkingEngine :=
  (e.pending_thoughts, { e with pending_thoughts := [] })

/-- `ThinkingEngine.add_thought`. -/
def ThinkingEngine.add_thought (e : ThinkingEngine) (thought : String) : ThinkingEngine :=
  { e with pending_thoughts := e.pending_thoughts ++ [thought] }

/-- `ThinkingEngine.mark_notification_sent`: reset the cooldown clock. -/
def ThinkingEngine.mark_notification_sent (e : ThinkingEngine) (now : ℚ) : ThinkingEngine :=
  { e with
    last_notification_time := now,
    stats := { e.stats with notifications_sent := e.stats.notifications_sent + 1 } }

/-- `ThinkingEngine.increment_gemini_calls`. -/
def ThinkingEngine.increment_gemini_calls (e : ThinkingEngine) : ThinkingEngine :=
  { e with
    gemini_call_count := e.gemini_call_count + 1,
    stats := { e.stats with gemini_consulted := e.stats.gemini_consulted + 1 } }

/-- `ThinkingEngine.should_consult_gemini`: true exactly when the stamped
significance score is at or above the gemini threshold; otherwise the
edge-filtered counter is bumped. -/
def ThinkingEngine.should_consult_gemini (e : ThinkingEngine) (obs : Observation) :
    Bool × ThinkingEngine :=
  if e.gemini_threshold ≤ obs.significance_score then
    (true, e)
  else
    (false, { e with stats := { e.stats with edge_filtered := e.stats.edge_filtered + 1 } })

/-- `ThinkingEngine.save_thought_for_later`: append a saved thought, keep only
the last 10. -/
def ThinkingEngine.save_thought_for_later (e : ThinkingEngine)
    (content reason : String) (context : Option String) (now : ℚ) : ThinkingEngine :=
  let thoughts := e.saved_thoughts ++ [⟨content, reason, now, context⟩]
  let thoughts := if 10 < thoughts.length then thoughts.drop (thoughts.length - 10) else thoughts
  { e with
    saved_thoughts := thoughts,
    stats := { e.stats with thoughts_saved := e.stats.thoughts_saved + 1 } }

/-- `ThinkingEngine.get_saved_thoughts`: return a copy, mutate nothing. -/
def ThinkingEngine.get_saved_thoughts (e : ThinkingEngine) :
    List SavedThought × ThinkingEngine :=
  (e.saved_thoughts, e)

/-- `ThinkingEngine.clear_saved_thoughts`. -/
def ThinkingEngine.clear_saved_thoughts (e : ThinkingEngine) : ThinkingEngine :=
  { e with saved_thoughts := [] }

/-- The falsy/placeholder test on the Gemini recommendation content
(src/backend/main.py line 173): `not rec_content or rec_content.lower() in
["null", "none", ""]`. -/
def contentIsNull (recommendation : Option String) : Bool :=
  match recommendation with
  | none => true
  | some r =>
    r == "" || (pyLower r == "null" || (pyLower r == "none" || pyLower r == ""))

/-- The speak/withhold decision matrix of `process_significant_observation`
(src/backend/main.py lines 196-209): the boolean says whether to speak, the
string is the reason recorded when withholding. -/
def speakDecision (current_state : ThinkingState) (can_speak user_is_focused : Bool)
    (significance_score : ℚ) : Bool × String :=
  if current_state = ThinkingState.RESTING then (false, "Rin is resting")
  else if current_state = ThinkingState.DEEP_REFLECTION then
    (false, "User is idle, saving for later")
  else if can_speak = false then (false, "Cooldown active")
  else if user_is_focused = true ∧ significance_score < 3/5 then
    (false, "User focused, score too low")
  else (true, "")

/-- `process_significant_observation` (src/backend/main.py lines 153-238),
after the external Gemini call: `recommendation` is the collaborator's
recommendation content. Speaking marks the notification sent; withholding
saves the thought with the decision's reason. Returns the updated engine and
whether the engine spoke. -/
def process_significant_observation (e : ThinkingEngine) (obs : Observation)
    (recommendation : Option String) (now : ℚ) : ThinkingEngine × Bool :=
  if contentIsNull recommendation then (e, false)
  else
    let rec_content := recommendation.getD ""
    let can_speak := e.can_notify now
    let activity_intensity := e.idle_detector.get_activity_intensity now 60
    let user_is_focused := decide (activity_intensity < 3/10)
    let d := speakDecision e.state can_speak user_is_focused obs.significance_score
    if d.1 then
      (e.mark_notification_sent now, true)
    else
      (e.save_thought_for_later rec_content d.2 (some obs.window_title) now, false)

/-- An event of the engine's driving loops, as far as the notification path is
concerned: time passing, the state-machine poll, a thinking cycle, or the
handling of one significant observation whose external analysis returned
`recommendation`. -/
inductive SysEvent where
  | tick (δ : ℚ)
  | updateState
  | runCycle
  | observeSig (obs : Observation) (recommendation : Option String)
deriving DecidableEq

/-- The engine together with the wall clock and a ghost log of the instants at
which `mark_notification_sent` fired (newest first). -/
structure Sys where
  now : ℚ
  engine : ThinkingEngine
  sent_log : List ℚ
deriving DecidableEq

/-- One step of the driving loops. Time only moves forward. -/
def sysStep (s : Sys) : SysEvent → Sys
  | SysEvent.tick δ => { s with now := s.now + max δ 0 }
  | SysEvent.updateState => { s with engine := (s.engine.update_state s.now).2 }
  | SysEvent.runCycle => { s with engine := (s.engine.run_thinking_cycle s.now).engine }
  | SysEvent.observeSig obs recommendation =>
    let pr := process_significant_observation s.engine obs recommendation s.now
    { s with
      engine := pr.1,
      sent_log := if pr.2 then s.now :: s.sent_log else s.sent_log }

/-- Run a sequence of events. -/
def sysRun (s : Sys) (events : List SysEvent) : Sys :=
  events.foldl sysStep s

/-- The freshly started system: engine just constructed, clock at the
construction instant. -/
def sysInit : Sys :=
  { now := 0, engine := {}, sent_log := [] }

/-- Adjacent entries of a sent log (newest first) are at least the 15 s
notification cooldown apart. -/
def cooldownGaps : List ℚ → Bool
  | a :: b :: rest => decide (15 ≤ a - b) && cooldownGaps (b :: rest)
  | _ => true

/-- Lowercasing fixes the concrete category string "development". -/
theorem pyLower_development : pyLower "development" = "development" := by decide

/-- Lowercasing fixes the concrete category string "work". -/
theorem pyLower_work : pyLower "work" = "work" := by decide

/-- A development-context observation sitting in the buffer of `c1Engine`. -/
def c1Obs1 : Observation :=
  { window_title := "main.py", app_name := "Code", app_category := "development",
    context_hash := "h1", timestamp := 395 }

/-- A second, different-context observation in the buffer of `c1Engine`. -/
def c1Obs2 : Observation :=
  { window_title := "report.docx", app_name := "Word", app_category := "work",
    context_hash := "h2", timestamp := 398 }

/-- A freshly constructed engine whose buffer holds two observations of
different contexts, both of which will clear the 0.4 threshold. -/
def c1Engine : ThinkingEngine :=
  { observation_buffer :=
      { buffer := [c1Obs1, c1Obs2], context_hashes := ["h2", "h1"],
        hash_timestamps := [("h1", 395), ("h2", 398)] } }

/-- C1 counterexample: in the cycle run at time 400 both buffered observations
score at or above the significance threshold (0.77 and 0.9), and
mark_significant is called twice, not exactly once. -/
theorem C1_counterexample :
    (c1Engine.run_thinking_cycle 400).result.significant_observations.length = 2 ∧
    (c1Engine.run_thinking_cycle 400).mark_significant_calls = 2 ∧
    (c1Engine.run_thinking_cycle 400).mark_significant_calls ≠ 1 := by
  simp only [c1Engine, c1Obs1, c1Obs2, ThinkingEngine.run_thinking_cycle,
    ObservationBuffer.get_all, ObservationBuffer.clear, scoreLoop,
    SignificanceScorer.score, SignificanceScorer.mark_significant,
    IdleDetector.get_activity_intensity, dictGet, dictSet, category_weights,
    pyLower_development, pyLower_work, min_def]
  simp
  norm_num

/-- In the scoring loop, mark_significant is called once per observation that
reaches the threshold: the call count equals the number collected. -/
theorem scoreLoop_mark_calls_eq (threshold activity_intensity now : ℚ) :
    ∀ (l : List Observation) (scorer : SignificanceScorer)
      (previous_obs : Option Observation),
      (scoreLoop scorer threshold activity_intensity now previous_obs l).mark_calls =
        (scoreLoop scorer threshold activity_intensity now previous_obs l).significant.length := by
  intro l
  induction l with
  | nil => intro scorer previous_obs; rfl
  | cons obs rest ih =>
    intro scorer previous_obs
    simp only [scoreLoop]
    split
    · simp [ih]
    · simp [ih]

/-- C1 (amended): during a thinking cycle, mark_significant is called once per
observation scoring at or above the significance threshold — the number of
calls equals the number of significant observations collected, so a cycle with
two qualifying observations calls it twice, not once. -/
theorem C1_mark_significant_per_qualifying (e : ThinkingEngine) (now : ℚ) :
    (e.run_thinking_cycle now).mark_significant_calls =
      (e.run_thinking_cycle now).result.significant_observations.length := by
  simp only [ThinkingEngine.run_thinking_cycle]
  split
  · rfl
  · exact scoreLoop_mark_calls_eq _ _ _ _ _ _

/-- Every observation collected as significant by the scoring loop carries a
stamped score at or above the threshold. -/
theorem scoreLoop_sig_ge_threshold (threshold activity_intensity now : ℚ) :
    ∀ (l : List Observation) (scorer : SignificanceScorer)
      (previous_obs : Option Observation) (obs : Observation),
      obs ∈ (scoreLoop scorer threshold activity_intensity now previous_obs l).significant →
      threshold ≤ obs.significance_score := by
  intro l
  induction l with
  | nil => intro scorer previous_obs obs h; cases h
  | cons o rest ih =>
    intro scorer previous_obs obs h
    simp only [scoreLoop] at h
    by_cases hth :
        threshold ≤ (scorer.score o previous_obs activity_intensity now).1
    · rw [if_pos hth] at h
      rcases List.mem_cons.mp h with h1 | h2
      · subst h1; exact hth
      · exact ih _ _ obs h2
    · rw [if_neg hth] at h
      exact ih _ _ obs h

/-- The thinking cycle leaves the configured thresholds untouched. -/
theorem run_thinking_cycle_thresholds (e : ThinkingEngine) (now : ℚ) :
    (e.run_thinking_cycle now).engine.gemini_threshold = e.gemini_threshold ∧
    (e.run_thinking_cycle now).engine.significance_threshold = e.significance_threshold := by
  simp only [ThinkingEngine.run_thinking_cycle]
  split <;> exact ⟨rfl, rfl⟩

/-- C2: should_consult_gemini is true exactly on a stamped score at or above
the 0.4 gemini threshold, and — the two thresholds being the same 0.4 — it is
true of every observation a cycle collects as significant. -/
theorem C2_two_tier_coincide :
    (∀ (e : ThinkingEngine) (obs : Observation), e.gemini_threshold = 2/5 →
      ((e.should_consult_gemini obs).1 = true ↔ 2/5 ≤ obs.significance_score)) ∧
    (∀ (e : ThinkingEngine) (now : ℚ) (obs : Observation),
      e.significance_threshold = 2/5 → e.gemini_threshold = 2/5 →
      obs ∈ (e.run_thinking_cycle now).result.significant_observations →
      (((e.run_thinking_cycle now).engine).should_consult_gemini obs).1 = true) := by
  constructor
  · intro e obs hth
    simp only [ThinkingEngine.should_consult_gemini, hth]
    split
    · simpa using ‹(2:ℚ)/5 ≤ obs.significance_score›
    · simpa using ‹¬ (2:ℚ)/5 ≤ obs.significance_score›
  · intro e now obs hsig hgem hmem
    have hscore : (2:ℚ)/5 ≤ obs.significance_score := by
      rw [← hsig]
      revert hmem
      simp only [ThinkingEngine.run_thinking_cycle]
      split
      · intro hmem; cases hmem
      · intro hmem
        exact scoreLoop_sig_ge_threshold _ _ _ _ _ _ obs hmem
    have hth := (run_thinking_cycle_thresholds e now).1
    simp only [ThinkingEngine.should_consult_gemini, hth, hgem, if_pos hscore]

/-- The observation c1Obs1 as it appears, stamped with its score 0.77, in the
significant list of c1Engine's cycle at time 400. -/
def c2SigObs : Observation :=
  { c1Obs1 with significance_score := 77/100 }

/-- C2 witness: on the concrete engine c1Engine the stamped first observation
is in the cycle's significant list and the gemini consultation says yes. -/
theorem C2_witness :
    ((({} : ThinkingEngine).should_consult_gemini c2SigObs).1 = true) ∧
    (((c1Engine.run_thinking_cycle 400).engine).should_consult_gemini c2SigObs).1 = true := by
  constructor
  · exact (C2_two_tier_coincide.1 {} c2SigObs rfl).mpr (by norm_num [c2SigObs, c1Obs1])
  · refine C2_two_tier_coincide.2 c1Engine 400 c2SigObs rfl rfl ?_
    simp only [c1Engine, c1Obs1, c1Obs2, c2SigObs, ThinkingEngine.run_thinking_cycle,
      ObservationBuffer.get_all, ObservationBuffer.clear, scoreLoop,
      SignificanceScorer.score, SignificanceScorer.mark_significant,
      IdleDetector.get_activity_intensity, dictGet, dictSet, category_weights,
      pyLower_development, pyLower_work, min_def]
    simp
    norm_num

/-- The buffered observation of the C5 counterexample. -/
def c5Obs : Observation :=
  { window_title := "main.py", app_name := "Code", app_category := "development",
    context_hash := "h-code", timestamp := 995 }

/-- An engine resting in DEEP_REFLECTION whose idle condition has just cleared
(activity recorded at time 1000), with a non-empty buffer and an overdue
thinking cycle. -/
def c5Engine : ThinkingEngine :=
  { state := ThinkingState.DEEP_REFLECTION,
    observation_buffer :=
      { buffer := [c5Obs], context_hashes := ["h-code"],
        hash_timestamps := [("h-code", 995)] },
    idle_detector := ({} : IdleDetector).record_activity "main.py" 1000,
    last_thinking_cycle := 900 }

/-- C5 counterexample: from DEEP_REFLECTION with the idle condition cleared,
update_state at time 1000 returns THINKING, not ACTIVE, because the buffer is
non-empty and a cycle is due. -/
theorem C5_counterexample :
    c5Engine.state = ThinkingState.DEEP_REFLECTION ∧
    c5Engine.idle_detector.is_idle 1000 = false ∧
    (c5Engine.update_state 1000).1 = ThinkingState.THINKING ∧
    (c5Engine.update_state 1000).1 ≠ ThinkingState.ACTIVE := by
  have hthink : (c5Engine.update_state 1000).1 = ThinkingState.THINKING := by
    norm_num [c5Engine, c5Obs, ThinkingEngine.update_state, IdleDetector.is_idle,
      IdleDetector.record_activity, IdleDetector.get_idle_duration,
      ThinkingEngine.should_run_thinking_cycle, ObservationBuffer.length]
  refine ⟨rfl, ?_, hthink, ?_⟩
  · norm_num [c5Engine, c5Obs, IdleDetector.is_idle, IdleDetector.record_activity]
  · rw [hthink]; decide

/-- C5 (amended): when the engine sits in DEEP_REFLECTION or RESTING and the
idle condition has cleared, the next update_state leaves those states — it
returns ACTIVE unless the buffer is non-empty and a thinking cycle is due, in
which case it returns THINKING. -/
theorem C5_idle_clear_leaves_rest (e : ThinkingEngine) (now : ℚ)
    (_hstate : e.state = ThinkingState.DEEP_REFLECTION ∨ e.state = ThinkingState.RESTING)
    (hidle : e.idle_detector.is_idle now = false) :
    (e.update_state now).1 =
      (if 0 < e.observation_buffer.length ∧ e.should_run_thinking_cycle now = true
        then ThinkingState.THINKING else ThinkingState.ACTIVE) ∧
    (e.update_state now).1 ≠ ThinkingState.DEEP_REFLECTION ∧
    (e.update_state now).1 ≠ ThinkingState.RESTING := by
  have hmain : (e.update_state now).1 =
      (if 0 < e.observation_buffer.length ∧ e.should_run_thinking_cycle now = true
        then ThinkingState.THINKING else ThinkingState.ACTIVE) := by
    simp only [ThinkingEngine.update_state, hidle]
    norm_num
  refine ⟨hmain, ?_, ?_⟩ <;> rw [hmain] <;> split <;> simp

/-- The engine of the C5 witness: RESTING, idle just cleared, empty buffer. -/
def c5WitnessEngine : ThinkingEngine :=
  { state := ThinkingState.RESTING,
    idle_detector := ({} : IdleDetector).record_activity "notes.txt" 50 }

/-- C5 witness: the amended statement applied to a concrete engine for which
the idle condition has cleared; with an empty buffer it returns ACTIVE. -/
theorem C5_witness :
    (c5WitnessEngine.update_state 50).1 ≠ ThinkingState.DEEP_REFLECTION ∧
    (c5WitnessEngine.update_state 50).1 = ThinkingState.ACTIVE := by
  have hidle : c5WitnessEngine.idle_detector.is_idle 50 = false := by
    norm_num [c5WitnessEngine, IdleDetector.is_idle, IdleDetector.record_activity]
  have h := C5_idle_clear_leaves_rest c5WitnessEngine 50 (Or.inr rfl) hidle
  refine ⟨h.2.1, ?_⟩
  rw [h.1]
  norm_num [c5WitnessEngine, ObservationBuffer.length]

/-- Hash cleanup never touches the buffered observations. -/
theorem cleanup_buffer_eq (b : ObservationBuffer) (now : ℚ) :
    (b.cleanup_old_hashes now).buffer = b.buffer := rfl

/-- Hash cleanup keeps the configured capacity. -/
theorem cleanup_max_size_eq (b : ObservationBuffer) (now : ℚ) :
    (b.cleanup_old_hashes now).max_size = b.max_size := rfl

/-- Hash cleanup keeps the configured TTL. -/
theorem cleanup_ttl_eq (b : ObservationBuffer) (now : ℚ) :
    (b.cleanup_old_hashes now).recent_hash_ttl = b.recent_hash_ttl := rfl

/-- The context hash h is registered (in the recency set and, uniquely, in the
timestamp dict) with timestamp exactly t1, under the standard 30 s TTL. -/
def HashFresh (st : ObservationBuffer) (h : String) (t1 : ℚ) : Prop :=
  st.recent_hash_ttl = 30 ∧
  h ∈ st.context_hashes ∧
  (h, t1) ∈ st.hash_timestamps ∧
  ∀ p ∈ st.hash_timestamps, p.1 = h → p.2 = t1

/-- An accepted add registers the observation's context hash with the add's
timestamp, and with no other timestamp. -/
theorem add_accepted_hashFresh (b : ObservationBuffer) (obs : Observation) (t1 : ℚ)
    (httl : b.recent_hash_ttl = 30) (hacc : (b.add obs t1).1 = true) :
    HashFresh ((b.add obs t1).2) obs.context_hash t1 := by
  simp only [ObservationBuffer.add] at hacc ⊢
  by_cases hc :
      ((b.cleanup_old_hashes t1).context_hashes.contains obs.context_hash) = true
  · rw [if_pos hc] at hacc; cases hacc
  · rw [if_neg hc] at hacc ⊢
    refine ⟨httl, List.mem_cons_self _ _, List.mem_cons_self _ _, ?_⟩
    intro p hp hph
    rcases List.mem_cons.mp hp with heq | hp'
    · rw [heq]
    · have hfil := List.of_mem_filter hp'
      rw [hph] at hfil
      simp at hfil

/-- Within the TTL of a fresh hash, an add of the same context is rejected,
the state change is exactly the TTL cleanup, and the hash stays fresh. -/
theorem hashFresh_add_within_ttl (st : ObservationBuffer) (obs : Observation)
    (h : String) (t1 t : ℚ)
    (hf : HashFresh st h t1) (hobs : obs.context_hash = h) (ht : t - t1 ≤ 30) :
    (st.add obs t).1 = false ∧
    (st.add obs t).2 = st.cleanup_old_hashes t ∧
    HashFresh ((st.add obs t).2) h t1 := by
  obtain ⟨httl, hmem, hts, huniq⟩ := hf
  have hcut : ¬ (t1 < t - st.recent_hash_ttl) := by rw [httl]; linarith
  have hnotexp : ∀ p ∈ st.hash_timestamps.filter
      (fun ht => decide (ht.2 < t - st.recent_hash_ttl)), p.1 ≠ h := by
    intro p hp hph
    have hin := List.mem_of_mem_filter hp
    have hlt := List.of_mem_filter hp
    rw [decide_eq_true_eq] at hlt
    rw [huniq p hin hph] at hlt
    exact hcut hlt
  have hexp : ((st.hash_timestamps.filter
      (fun ht => decide (ht.2 < t - st.recent_hash_ttl))).map Prod.fst).contains h = false := by
    rw [Bool.eq_false_iff]
    intro hcontains
    rw [List.elem_iff] at hcontains
    obtain ⟨p, hp, hph⟩ := List.mem_map.mp hcontains
    exact hnotexp p hp hph
  have hmemclean : h ∈ (st.cleanup_old_hashes t).context_hashes := by
    simp only [ObservationBuffer.cleanup_old_hashes]
    exact List.mem_filter.mpr ⟨hmem, by rw [hexp]; rfl⟩
  have hcontains : ((st.cleanup_old_hashes t).context_hashes.contains obs.context_hash) = true := by
    rw [List.elem_iff, hobs]; exact hmemclean
  have hadd1 : (st.add obs t).1 = false := by
    simp only [ObservationBuffer.add]
    rw [if_pos hcontains]
  have hadd2 : (st.add obs t).2 = st.cleanup_old_hashes t := by
    simp only [ObservationBuffer.add]
    rw [if_pos hcontains]
  refine ⟨hadd1, hadd2, ?_⟩
  rw [hadd2]
  refine ⟨httl, hmemclean, ?_, ?_⟩
  · simp only [ObservationBuffer.cleanup_old_hashes]
    refine List.mem_filter.mpr ⟨hts, ?_⟩
    simp only [Bool.not_eq_true']
    rw [decide_eq_false_iff_not]
    exact hcut
  · intro p hp hph
    exact huniq p (List.mem_of_mem_filter hp) hph

/-- Once strictly more than the TTL has passed since the registered timestamp,
an add of the same context is accepted again. -/
theorem hashFresh_add_after_ttl (st : ObservationBuffer) (obs : Observation)
    (h : String) (t1 t : ℚ)
    (hf : HashFresh st h t1) (hobs : obs.context_hash = h) (ht : 30 < t - t1) :
    (st.add obs t).1 = true := by
  obtain ⟨httl, hmem, hts, huniq⟩ := hf
  have hcut : t1 < t - st.recent_hash_ttl := by rw [httl]; linarith
  have hexp : ((st.hash_timestamps.filter
      (fun p => decide (p.2 < t - st.recent_hash_ttl))).map Prod.fst).contains h = true := by
    rw [List.elem_iff]
    exact List.mem_map.mpr ⟨(h, t1),
      List.mem_filter.mpr ⟨hts, by rw [decide_eq_true_eq]; exact hcut⟩, rfl⟩
  have hgone : h ∉ (st.cleanup_old_hashes t).context_hashes := by
    simp only [ObservationBuffer.cleanup_old_hashes]
    intro hmemf
    have := List.of_mem_filter hmemf
    rw [hexp] at this
    cases this
  have hcontains : ¬ ((st.cleanup_old_hashes t).context_hashes.contains obs.context_hash = true) := by
    rw [hobs]
    intro hc
    exact hgone (List.elem_iff.mp hc)
  simp only [ObservationBuffer.add]
  rw [if_neg hcontains]

/-- Repeated submissions of the same observation at the given times
(src behaviour: each submission goes through ObservationBuffer.add). -/
def submitMany (b : ObservationBuffer) (obs : Observation) (times : List ℚ) :
    ObservationBuffer :=
  times.foldl (fun st t => (st.add obs t).2) b

/-- Continuous resubmission within the TTL keeps the registered hash exactly
as the accepted add left it. -/
theorem hashFresh_submitMany (obs : Observation) (h : String) (t1 : ℚ)
    (hobs : obs.context_hash = h) :
    ∀ (times : List ℚ) (st : ObservationBuffer), HashFresh st h t1 →
      (∀ t ∈ times, t - t1 ≤ 30) → HashFresh (submitMany st obs times) h t1 := by
  intro times
  induction times with
  | nil => intro st hf _; exact hf
  | cons t rest ih =>
    intro st hf hts
    have step := hashFresh_add_within_ttl st obs h t1 t hf hobs (hts t (by simp))
    simp only [submitMany, List.foldl_cons]
    exact ih _ step.2.2 (fun u hu => hts u (by simp [hu]))

/-- C3: a second add of the same context within the 30 s TTL of an accepted
add is rejected and leaves the buffered observations untouched — the
duplicate is dropped, nothing is merged or updated. -/
theorem C3_dedup_within_ttl (b : ObservationBuffer) (obs1 obs2 : Observation) (t1 t2 : ℚ)
    (httl : b.recent_hash_ttl = 30)
    (hhash : obs2.context_hash = obs1.context_hash)
    (hacc : (b.add obs1 t1).1 = true)
    (hwin : t2 - t1 ≤ 30) :
    (((b.add obs1 t1).2).add obs2 t2).1 = false ∧
    (((b.add obs1 t1).2).add obs2 t2).2.buffer = ((b.add obs1 t1).2).buffer ∧
    (((b.add obs1 t1).2).add obs2 t2).2.buffer.length = ((b.add obs1 t1).2).buffer.length := by
  have hf := add_accepted_hashFresh b obs1 t1 httl hacc
  have step := hashFresh_add_within_ttl _ obs2 _ t1 t2 hf hhash hwin
  refine ⟨step.1, ?_, ?_⟩ <;> rw [step.2.1, cleanup_buffer_eq]

/-- The observation used by the concrete buffer witnesses. -/
def bufObs : Observation :=
  { window_title := "main.py", app_name := "Code", app_category := "development",
    context_hash := "h", timestamp := 0 }

/-- One mutating operation on an observation buffer, as issued by the engine:
an add, a clear after a cycle, or a TTL cleanup. -/
inductive BufOp where
  | add (obs : Observation) (now : ℚ)
  | clear
  | cleanup (now : ℚ)
deriving DecidableEq

/-- Apply one buffer operation. -/
def applyBufOp (b : ObservationBuffer) : BufOp → ObservationBuffer
  | BufOp.add obs now => (b.add obs now).2
  | BufOp.clear => b.clear
  | BufOp.cleanup now => b.cleanup_old_hashes now

/-- Apply a sequence of buffer operations. -/
def runBufOps (b : ObservationBuffer) (ops : List BufOp) : ObservationBuffer :=
  ops.foldl applyBufOp b

/-- No buffer operation changes the configured capacity. -/
theorem applyBufOp_max_size (b : ObservationBuffer) (op : BufOp) :
    (applyBufOp b op).max_size = b.max_size := by
  cases op with
  | add obs now =>
    simp only [applyBufOp, ObservationBuffer.add]
    split <;> rfl
  | clear => rfl
  | cleanup now => rfl

/-- An add never grows the buffer beyond the configured capacity. -/
theorem add_length_le (b : ObservationBuffer) (obs : Observation) (now : ℚ)
    (hlen : b.buffer.length ≤ b.max_size) :
    (b.add obs now).2.buffer.length ≤ b.max_size := by
  simp only [ObservationBuffer.add]
  split
  · exact hlen
  · split
    · rename_i hm
      rw [cleanup_max_size_eq, cleanup_buffer_eq, List.length_append] at hm
      dsimp only
      rw [List.length_drop, cleanup_max_size_eq, cleanup_buffer_eq, List.length_append]
      omega
    · rename_i hm
      rw [cleanup_max_size_eq, cleanup_buffer_eq, List.length_append] at hm
      push_neg at hm
      dsimp only
      rw [cleanup_buffer_eq, List.length_append]
      omega

/-- Each buffer operation preserves the capacity bound. -/
theorem applyBufOp_length_le (b : ObservationBuffer) (op : BufOp)
    (hlen : b.buffer.length ≤ b.max_size) :
    (applyBufOp b op).buffer.length ≤ (applyBufOp b op).max_size := by
  rw [applyBufOp_max_size]
  cases op with
  | add obs now => exact add_length_le b obs now hlen
  | clear => exact Nat.zero_le _
  | cleanup now => exact hlen

/-- The capacity bound is an invariant of arbitrary operation sequences. -/
theorem runBufOps_length_le (ops : List BufOp) :
    ∀ b : ObservationBuffer, b.buffer.length ≤ b.max_size →
      (runBufOps b ops).buffer.length ≤ (runBufOps b ops).max_size := by
  induction ops with
  | nil => intro b hb; exact hb
  | cons op rest ih =>
    intro b hb
    have hstep : runBufOps b (op :: rest) = runBufOps (applyBufOp b op) rest := rfl
    rw [hstep]
    exact ih _ (applyBufOp_length_le b op hb)

/-- Operation sequences do not change the configured capacity. -/
theorem runBufOps_max_size (ops : List BufOp) :
    ∀ b : ObservationBuffer, (runBufOps b ops).max_size = b.max_size := by
  induction ops with
  | nil => intro b; rfl
  | cons op rest ih =>
    intro b
    have hstep : runBufOps b (op :: rest) = runBufOps (applyBufOp b op) rest := rfl
    rw [hstep, ih, applyBufOp_max_size]

/-- C4: starting from the freshly constructed buffer, no sequence of
operations pushes the length beyond the capacity 10; and an accepted add into
a full buffer evicts exactly the oldest entry, keeping the rest in order. -/
theorem C4_capacity_and_eviction :
    (∀ ops : List BufOp, (runBufOps ({} : ObservationBuffer) ops).buffer.length ≤ 10) ∧
    (∀ (b : ObservationBuffer) (obs : Observation) (now : ℚ),
      b.max_size = 10 → b.buffer.length = 10 → (b.add obs now).1 = true →
      (b.add obs now).2.buffer = b.buffer.tail ++ [obs]) := by
  constructor
  · intro ops
    have h := runBufOps_length_le ops {} (by simp [ObservationBuffer.length])
    rwa [runBufOps_max_size ops {}] at h
  · intro b obs now hmax hfull hacc
    simp only [ObservationBuffer.add] at hacc ⊢
    split at hacc
    · cases hacc
    · rename_i hc
      rw [if_neg hc]
      have hm : (b.cleanup_old_hashes now).max_size <
          ((b.cleanup_old_hashes now).buffer ++ [obs]).length := by
        rw [cleanup_max_size_eq, cleanup_buffer_eq, List.length_append, hmax, hfull]
        norm_num
      rw [if_pos hm]
      dsimp only
      rw [cleanup_buffer_eq, cleanup_max_size_eq, List.length_append, hfull, hmax]
      norm_num
      cases hb : b.buffer with
      | nil => rw [hb] at hfull; exact absurd hfull (by decide)
      | cons a l => rfl

/-- The full buffer of the C4 witness: ten buffered observations. -/
def fullBuffer : ObservationBuffer :=
  { buffer := [
      { window_title := "w0", app_name := "a", app_category := "other",
        context_hash := "k0", timestamp := 0 },
      { window_title := "w1", app_name := "a", app_category := "other",
        context_hash := "k1", timestamp := 1 },
      { window_title := "w2", app_name := "a", app_category := "other",
        context_hash := "k2", timestamp := 2 },
      { window_title := "w3", app_name := "a", app_category := "other",
        context_hash := "k3", timestamp := 3 },
      { window_title := "w4", app_name := "a", app_category := "other",
        context_hash := "k4", timestamp := 4 },
      { window_title := "w5", app_name := "a", app_category := "other",
        context_hash := "k5", timestamp := 5 },
      { window_title := "w6", app_name := "a", app_category := "other",
        context_hash := "k6", timestamp := 6 },
      { window_title := "w7", app_name := "a", app_category := "other",
        context_hash := "k7", timestamp := 7 },
      { window_title := "w8", app_name := "a", app_category := "other",
        context_hash := "k8", timestamp := 8 },
      { window_title := "w9", app_name := "a", app_category := "other",
        context_hash := "k9", timestamp := 9 }] }

/-- C4 witness: the capacity bound on a concrete operation sequence, and the
eviction equation on a concrete full buffer accepting a new context. -/
theorem C4_witness :
    (runBufOps ({} : ObservationBuffer)
        [BufOp.add bufObs 0, BufOp.clear]).buffer.length ≤ 10 ∧
    (fullBuffer.add bufObs 20).2.buffer = fullBuffer.buffer.tail ++ [bufObs] := by
  constructor
  · exact C4_capacity_and_eviction.1 [BufOp.add bufObs 0, BufOp.clear]
  · exact C4_capacity_and_eviction.2 fullBuffer bufObs 20 rfl (by decide) (by decide)

/-- C3 witness: on an initially empty buffer, the add at time 0 is accepted
and the identical context resubmitted at time 10 is rejected without change. -/
theorem C3_witness :
    ((({} : ObservationBuffer).add bufObs 0).1 = true) ∧
    (((({} : ObservationBuffer).add bufObs 0).2).add bufObs 10).1 = false ∧
    (((({} : ObservationBuffer).add bufObs 0).2).add bufObs 10).2.buffer =
      ((({} : ObservationBuffer).add bufObs 0).2).buffer := by
  have hacc : ((({} : ObservationBuffer).add bufObs 0).1 = true) := by decide
  have h := C3_dedup_within_ttl {} bufObs bufObs 0 10 rfl rfl hacc (by norm_num)
  exact ⟨hacc, h.1, h.2.1⟩

/-- C9: a rejected (deduplicated) add performs exactly the TTL cleanup — in
particular it never refreshes the stored recency timestamp — and therefore an
identical context submitted continuously is accepted again once strictly more
than 30 s have passed since the last accepted add, regardless of the rejected
submissions in between. -/
theorem C9_reject_no_refresh :
    (∀ (b : ObservationBuffer) (obs : Observation) (now : ℚ),
      (b.add obs now).1 = false → (b.add obs now).2 = b.cleanup_old_hashes now) ∧
    (∀ (b : ObservationBuffer) (obs1 obs : Observation) (t1 t2 : ℚ) (times : List ℚ),
      b.recent_hash_ttl = 30 → obs.context_hash = obs1.context_hash →
      (b.add obs1 t1).1 = true →
      (∀ t ∈ times, t - t1 ≤ 30) → 30 < t2 - t1 →
      ((submitMany ((b.add obs1 t1).2) obs times).add obs t2).1 = true) := by
  constructor
  · intro b obs now hrej
    simp only [ObservationBuffer.add] at hrej ⊢
    by_cases hc :
        ((b.cleanup_old_hashes now).context_hashes.contains obs.context_hash) = true
    · rw [if_pos hc]
    · rw [if_neg hc] at hrej; cases hrej
  · intro b obs1 obs t1 t2 times httl hhash hacc htimes ht2
    have hf0 := add_accepted_hashFresh b obs1 t1 httl hacc
    rw [← hhash] at hf0
    have hf1 := hashFresh_submitMany obs obs.context_hash t1 rfl times _ hf0 htimes
    exact hashFresh_add_after_ttl _ obs _ t1 t2 hf1 rfl ht2

/-- C9 witness: the empty buffer accepts the context at time 0, rejections at
times 10 and 29 do not refresh the clock, and the add at time 31 is accepted;
a rejected add equals plain cleanup on a concrete state. -/
theorem C9_witness :
    ((submitMany ((({} : ObservationBuffer).add bufObs 0).2) bufObs [10, 29]).add bufObs 31).1
        = true ∧
    (((({} : ObservationBuffer).add bufObs 0).2).add bufObs 10).2 =
      ((({} : ObservationBuffer).add bufObs 0).2).cleanup_old_hashes 10 := by
  constructor
  · refine C9_reject_no_refresh.2 {} bufObs bufObs 0 31 [10, 29] rfl rfl (by decide) ?_ (by norm_num)
    intro t ht
    fin_cases ht <;> norm_num
  · refine C9_reject_no_refresh.1 _ bufObs 10 ?_
    norm_num [bufObs, ObservationBuffer.add, ObservationBuffer.cleanup_old_hashes,
      dictSet, dictGet]

/-- The observation of the C6 counterexample: all positive score components
maximal (novel development context, app and category switch, stale clock). -/
def c6Obs : Observation :=
  { window_title := "main.py", app_name := "Code", app_category := "development",
    context_hash := "hx", timestamp := 0 }

/-- The predecessor observation of the C6 counterexample. -/
def c6Prev : Observation :=
  { window_title := "report.docx", app_name := "Word", app_category := "work",
    context_hash := "hy", timestamp := 0 }

/-- C6 counterexample: the score is clamped above by 1 but never below by 0,
so with activity intensity 10 the returned value is negative (-0.48), outside
[0, 1]. -/
theorem C6_counterexample :
    ((({} : SignificanceScorer).score c6Obs (some c6Prev) 10 400).1 < 0) := by
  simp only [SignificanceScorer.score, c6Obs, c6Prev, dictGet, dictSet,
    category_weights, pyLower_development, min_def]
  simp
  norm_num

/-- A value propagates through a Python dict read when every stored value and
the default satisfy the predicate. -/
theorem dictGet_of_all {α : Type} (P : α → Prop) (l : List (String × α)) (k : String)
    (d : α) (hl : ∀ p ∈ l, P p.2) (hd : P d) : P (dictGet l k d) := by
  unfold dictGet
  cases hfind : l.find? (fun p => p.1 == k) with
  | none => exact hd
  | some p => exact hl p (List.mem_of_find?_eq_some hfind)

/-- Every category weight, and the default, lies between 0.2 and 0.6. -/
theorem category_weight_bounds (c : String) :
    (1:ℚ)/5 ≤ dictGet category_weights c (1/5) ∧ dictGet category_weights c (1/5) ≤ 3/5 := by
  refine dictGet_of_all (fun x => (1:ℚ)/5 ≤ x ∧ x ≤ 3/5) _ _ _ ?_ (by norm_num)
  intro p hp
  fin_cases hp <;> norm_num

/-- C6 (amended): whenever the activity intensity is at most 1 — in particular
for every value the idle detector can produce — the score lies in [0, 1], for
any observation, any optional predecessor and any staleness. -/
theorem C6_score_in_unit_interval (s : SignificanceScorer) (obs : Observation)
    (previous_obs : Option Observation) (activity_intensity now : ℚ)
    (hai : activity_intensity ≤ 1) :
    0 ≤ (s.score obs previous_obs activity_intensity now).1 ∧
    (s.score obs previous_obs activity_intensity now).1 ≤ 1 := by
  constructor
  · simp only [SignificanceScorer.score]
    refine le_min (by norm_num) ?_
    have hcat := (category_weight_bounds (pyLower obs.app_category)).1
    refine add_nonneg (add_nonneg (add_nonneg (add_nonneg ?_ ?_) ?_) ?_) ?_
    · positivity
    · have : (0:ℚ) ≤ dictGet category_weights (pyLower obs.app_category) (1/5) := by
        linarith
      positivity
    · cases previous_obs with
      | none => norm_num
      | some p =>
        refine add_nonneg ?_ ?_ <;> split <;> norm_num
    · have h1 : (0:ℚ) ≤ 1 - activity_intensity := by linarith
      positivity
    · split <;> norm_num
  · simp only [SignificanceScorer.score]
    exact min_le_left _ _

/-- C6 witness: the amended bound applied at a concrete scorer, observation
and intensity 1/2. -/
theorem C6_witness :
    0 ≤ (({} : SignificanceScorer).score bufObs none (1/2) 0).1 ∧
    (({} : SignificanceScorer).score bufObs none (1/2) 0).1 ≤ 1 :=
  C6_score_in_unit_interval {} bufObs none (1/2) 0 (by norm_num)

/-- The scorer state after n repeated score calls on the same arguments (the
nth occurrence of the same context hash). -/
def scorerAfter (s : SignificanceScorer) (obs : Observation)
    (previous_obs : Option Observation) (activity_intensity now : ℚ) :
    Nat → SignificanceScorer
  | 0 => s
  | n + 1 =>
    ((scorerAfter s obs previous_obs activity_intensity now n).score
      obs previous_obs activity_intensity now).2

/-- The score value returned on the (n+1)st occurrence of the context, all
other inputs held fixed. -/
def nth_score (s : SignificanceScorer) (obs : Observation)
    (previous_obs : Option Observation) (activity_intensity now : ℚ) (n : Nat) : ℚ :=
  ((scorerAfter s obs previous_obs activity_intensity now n).score
    obs previous_obs activity_intensity now).1

/-- Writing a Python dict key makes the following read of it return the new
value. -/
theorem dictGet_dictSet_self {α : Type} (l : List (String × α)) (k : String) (v d : α) :
    dictGet (dictSet l k v) k d = v := by
  simp [dictGet, dictSet]

/-- A score call bumps the seen count of the scored context hash by one. -/
theorem score_bumps_seen (s : SignificanceScorer) (obs : Observation)
    (previous_obs : Option Observation) (activity_intensity now : ℚ) :
    dictGet ((s.score obs previous_obs activity_intensity now).2).seen_contexts
        obs.context_hash 0 =
      dictGet s.seen_contexts obs.context_hash 0 + 1 := by
  simp only [SignificanceScorer.score]
  exact dictGet_dictSet_self _ _ _ _

/-- A score call leaves the staleness clock untouched. -/
theorem score_keeps_last_significant (s : SignificanceScorer) (obs : Observation)
    (previous_obs : Option Observation) (activity_intensity now : ℚ) :
    ((s.score obs previous_obs activity_intensity now).2).last_significant_time =
      s.last_significant_time := rfl

/-- After n repeated calls, the seen count has grown by exactly n. -/
theorem scorerAfter_seen (s : SignificanceScorer) (obs : Observation)
    (previous_obs : Option Observation) (activity_intensity now : ℚ) :
    ∀ n : Nat,
      dictGet (scorerAfter s obs previous_obs activity_intensity now n).seen_contexts
          obs.context_hash 0 =
        dictGet s.seen_contexts obs.context_hash 0 + n := by
  intro n
  induction n with
  | zero => rfl
  | succ n ih =>
    simp only [scorerAfter, score_bumps_seen, ih]
    omega

/-- Repeated score calls leave the staleness clock untouched. -/
theorem scorerAfter_last (s : SignificanceScorer) (obs : Observation)
    (previous_obs : Option Observation) (activity_intensity now : ℚ) :
    ∀ n : Nat,
      (scorerAfter s obs previous_obs activity_intensity now n).last_significant_time =
        s.last_significant_time := by
  intro n
  induction n with
  | zero => rfl
  | succ n ih => simp only [scorerAfter, score_keeps_last_significant, ih]

/-- With the staleness clock equal and a larger seen count, the returned score
is no larger: only the novelty term depends on the count and it decays. -/
theorem score_antitone_in_count (s1 s2 : SignificanceScorer) (obs : Observation)
    (previous_obs : Option Observation) (activity_intensity now : ℚ)
    (hlast : s2.last_significant_time = s1.last_significant_time)
    (hcnt : dictGet s1.seen_contexts obs.context_hash 0 ≤
      dictGet s2.seen_contexts obs.context_hash 0) :
    (s2.score obs previous_obs activity_intensity now).1 ≤
      (s1.score obs previous_obs activity_intensity now).1 := by
  simp only [SignificanceScorer.score, hlast]
  refine min_le_min (le_refl 1) ?_
  refine add_le_add_right (add_le_add_right (add_le_add_right (add_le_add_right ?_ _) _) _) _
  refine mul_le_mul_of_nonneg_right ?_ (by norm_num)
  have hpos : (0:ℚ) <
      1 + ((dictGet s1.seen_contexts obs.context_hash 0 : ℕ) : ℚ) * (1/2) := by
    positivity
  have hc : ((dictGet s1.seen_contexts obs.context_hash 0 : ℕ) : ℚ) ≤
      ((dictGet s2.seen_contexts obs.context_hash 0 : ℕ) : ℚ) := by exact_mod_cast hcnt
  exact one_div_le_one_div_of_le hpos (by linarith)

/-- C7: for a fixed context hash and all other inputs held fixed, the score of
the Nth occurrence is non-increasing in N. -/
theorem C7_nth_score_antitone (s : SignificanceScorer) (obs : Observation)
    (previous_obs : Option Observation) (activity_intensity now : ℚ)
    (n m : Nat) (hnm : n ≤ m) :
    nth_score s obs previous_obs activity_intensity now m ≤
      nth_score s obs previous_obs activity_intensity now n := by
  unfold nth_score
  apply score_antitone_in_count
  · rw [scorerAfter_last, scorerAfter_last]
  · rw [scorerAfter_seen, scorerAfter_seen]
    omega

/-- C7 witness: the sixth occurrence scores no higher than the third, on a
concrete scorer and observation. -/
theorem C7_witness :
    nth_score {} bufObs none (1/2) 0 5 ≤ nth_score {} bufObs none (1/2) 0 2 :=
  C7_nth_score_antitone {} bufObs none (1/2) 0 2 5 (by norm_num)

/-- A positive speak decision requires the cooldown check to have passed. -/
theorem speakDecision_can_speak (st : ThinkingState) (cs uf : Bool) (sc : ℚ)
    (h : (speakDecision st cs uf sc).1 = true) : cs = true := by
  unfold speakDecision at h
  split at h
  · cases h
  · split at h
    · cases h
    · split at h
      · cases h
      · cases cs with
        | false => rename_i hcs; exact absurd rfl hcs
        | true => rfl

/-- The notification path speaks only when can_notify reports the cooldown
elapsed, and speaking stamps the current instant as the last notification;
a withheld or skipped observation leaves the cooldown clock untouched. -/
theorem process_spoke (e : ThinkingEngine) (obs : Observation)
    (recommendation : Option String) (now : ℚ) :
    ((process_significant_observation e obs recommendation now).2 = true →
      e.can_notify now = true ∧
      (process_significant_observation e obs recommendation now).1.last_notification_time
        = now) ∧
    ((process_significant_observation e obs recommendation now).2 = false →
      (process_significant_observation e obs recommendation now).1.last_notification_time
        = e.last_notification_time) := by
  simp only [process_significant_observation]
  split
  · exact ⟨fun h => absurd h (by simp), fun _ => rfl⟩
  · split
    · rename_i hd
      refine ⟨fun _ => ⟨speakDecision_can_speak _ _ _ _ hd, rfl⟩, fun h => absurd h (by simp)⟩
    · exact ⟨fun h => absurd h (by simp), fun _ => rfl⟩

/-- The notification path never changes the configured cooldown length. -/
theorem process_keeps_cooldown (e : ThinkingEngine) (obs : Observation)
    (recommendation : Option String) (now : ℚ) :
    (process_significant_observation e obs recommendation now).1.notification_cooldown =
      e.notification_cooldown := by
  simp only [process_significant_observation]
  split
  · rfl
  · split <;> rfl

/-- The state-machine poll changes neither the cooldown clock nor its length. -/
theorem update_state_keeps_notification (e : ThinkingEngine) (now : ℚ) :
    (e.update_state now).2.last_notification_time = e.last_notification_time ∧
    (e.update_state now).2.notification_cooldown = e.notification_cooldown :=
  ⟨rfl, rfl⟩

/-- A thinking cycle changes neither the cooldown clock nor its length. -/
theorem run_cycle_keeps_notification (e : ThinkingEngine) (now : ℚ) :
    (e.run_thinking_cycle now).engine.last_notification_time = e.last_notification_time ∧
    (e.run_thinking_cycle now).engine.notification_cooldown = e.notification_cooldown := by
  simp only [ThinkingEngine.run_thinking_cycle]
  split <;> exact ⟨rfl, rfl⟩

/-- The trace invariant behind the cooldown property: the ghost log keeps its
15 s gaps, every logged instant is at most the engine's cooldown clock, the
clock never runs ahead of wall time, and the cooldown length stays 15. -/
def sysInv (s : Sys) : Prop :=
  cooldownGaps s.sent_log = true ∧
  (∀ x ∈ s.sent_log, x ≤ s.engine.last_notification_time) ∧
  s.engine.last_notification_time ≤ s.now ∧
  s.engine.notification_cooldown = 15

/-- Every driving-loop event preserves the cooldown invariant. -/
theorem sysStep_inv (s : Sys) (ev : SysEvent) (h : sysInv s) : sysInv (sysStep s ev) := by
  obtain ⟨hg, hle, hnow, hcd⟩ := h
  cases ev with
  | tick δ =>
    refine ⟨hg, hle, ?_, hcd⟩
    simp only [sysStep]
    have hd : (0:ℚ) ≤ max δ 0 := le_max_right δ 0
    linarith
  | updateState =>
    obtain ⟨h1, h2⟩ := update_state_keeps_notification s.engine s.now
    exact ⟨hg, by simpa [sysStep, h1] using hle, by simpa [sysStep, h1] using hnow,
      by simpa [sysStep, h2] using hcd⟩
  | runCycle =>
    obtain ⟨h1, h2⟩ := run_cycle_keeps_notification s.engine s.now
    exact ⟨hg, by simpa [sysStep, h1] using hle, by simpa [sysStep, h1] using hnow,
      by simpa [sysStep, h2] using hcd⟩
  | observeSig obs recommendation =>
    simp only [sysStep]
    rcases hsp : (process_significant_observation s.engine obs recommendation s.now).2 with _ | _
    · have h1 := (process_spoke s.engine obs recommendation s.now).2 hsp
      rw [if_neg (by decide)]
      exact ⟨hg, by simpa [h1] using hle, by simpa [h1] using hnow,
        by simpa [process_keeps_cooldown] using hcd⟩
    · have h1 := (process_spoke s.engine obs recommendation s.now).1 hsp
      have hcn : (15:ℚ) ≤ s.now - s.engine.last_notification_time := by
        have := h1.1
        unfold ThinkingEngine.can_notify at this
        rw [decide_eq_true_eq] at this
        rw [hcd] at this
        exact this
      rw [if_pos rfl]
      refine ⟨?_, ?_, ?_, by simpa [process_keeps_cooldown] using hcd⟩
      · cases hl : s.sent_log with
        | nil => rfl
        | cons x rest =>
          have hx : x ≤ s.engine.last_notification_time := hle x (by rw [hl]; simp)
          have hgap : (15:ℚ) ≤ s.now - x := by linarith
          rw [hl] at hg
          simp only [cooldownGaps, Bool.and_eq_true, decide_eq_true_eq]
          exact ⟨hgap, hg⟩
      · intro y hy
        rw [h1.2]
        rcases List.mem_cons.mp hy with rfl | hy'
        · exact le_refl _
        · exact le_trans (hle y hy') (by linarith)
      · rw [h1.2]

/-- The cooldown invariant is preserved along every event sequence. -/
theorem sysRun_inv (events : List SysEvent) :
    ∀ s : Sys, sysInv s → sysInv (sysRun s events) := by
  induction events with
  | nil => intro s h; exact h
  | cons ev rest ih =>
    intro s h
    have hstep : sysRun s (ev :: rest) = sysRun (sysStep s ev) rest := rfl
    rw [hstep]
    exact ih _ (sysStep_inv s ev h)

/-- C8: along every execution of the notification path from a fresh engine,
instants at which a notification is marked sent are at least the 15 s cooldown
apart; the path speaks only when can_notify reports the cooldown elapsed, and
speaking resets the cooldown clock to the current instant. -/
theorem C8_cooldown_spacing :
    (∀ events : List SysEvent, cooldownGaps (sysRun sysInit events).sent_log = true) ∧
    (∀ (e : ThinkingEngine) (obs : Observation) (recommendation : Option String) (now : ℚ),
      (process_significant_observation e obs recommendation now).2 = true →
      e.can_notify now = true ∧
      (process_significant_observation e obs recommendation now).1.last_notification_time
        = now) := by
  constructor
  · intro events
    have hinit : sysInv sysInit := by
      unfold sysInv
      refine ⟨rfl, ?_, le_rfl, rfl⟩
      intro x hx
      cases hx
    exact (sysRun_inv events sysInit hinit).1
  · intro e obs recommendation now h
    exact (process_spoke e obs recommendation now).1 h

/-- The significant observation of the C8 witness, already stamped with a
score above the focused-user bar. -/
def c8Obs : Observation :=
  { window_title := "main.py", app_name := "Code", app_category := "development",
    context_hash := "h8", timestamp := 0, significance_score := 7/10 }

/-- C8 witness: a concrete two-notification trace keeps its gaps, and on a
concrete engine whose cooldown has elapsed the path speaks and stamps the
clock. -/
theorem C8_witness :
    cooldownGaps (sysRun sysInit
        [SysEvent.tick 20, SysEvent.observeSig c8Obs (some "tip"),
         SysEvent.tick 20, SysEvent.observeSig c8Obs (some "tip")]).sent_log = true ∧
    (({} : ThinkingEngine).can_notify 20 = true ∧
      (process_significant_observation {} c8Obs (some "tip") 20).1.last_notification_time
        = 20) := by
  constructor
  · exact C8_cooldown_spacing.1 _
  · refine C8_cooldown_spacing.2 {} c8Obs (some "tip") 20 ?_
    have hnull : contentIsNull (some "tip") = false := by decide
    have hcn : ({} : ThinkingEngine).can_notify 20 = true := by
      unfold ThinkingEngine.can_notify
      rw [decide_eq_true_eq]
      show (15:ℚ) ≤ 20 - 0
      norm_num
    have hint : ({} : ThinkingEngine).idle_detector.get_activity_intensity 20 60 = 0 := by
      simp [IdleDetector.get_activity_intensity]
    simp only [process_significant_observation, hnull, hcn, hint, c8Obs]
    simp [speakDecision]
    norm_num

/-- C10: get_pending_thoughts returns the pending thoughts and empties the
internal list (a second call returns the empty list), while get_saved_thoughts
returns the saved list and leaves the engine untouched; clear_saved_thoughts
is what empties it. -/
theorem C10_thought_accessors (e : ThinkingEngine) :
    (e.get_pending_thoughts).1 = e.pending_thoughts ∧
    (e.get_pending_thoughts).2.pending_thoughts = [] ∧
    (((e.get_pending_thoughts).2).get_pending_thoughts).1 = [] ∧
    (e.get_saved_thoughts).1 = e.saved_thoughts ∧
    (e.get_saved_thoughts).2 = e ∧
    (e.clear_saved_thoughts).saved_thoughts = [] :=
  ⟨rfl, rfl, rfl, rfl, rfl, rfl⟩

end Thea
